import Mathlib

/-!
Shallow embedding of `src/Ch03_CNN/Ex03A/plotting_cnn.py`, a pair of
matplotlib helper functions:

* `plot_image(image)` — displays one 2D numeric array as a grayscale raster
  with a red grid and integer ticks at every pixel boundary;
* `plot_channels(channels)` — displays each 2D slice of a 3D array in its own
  subplot of a single row, titled `"Channel {i}"`.

The matplotlib calls are modelled by recording the figure configuration they
establish (colormap, aspect, extent, grid style, tick positions, titles).
The two backend behaviours the code depends on are modelled explicitly:
`plt.subplots(nrows, ncols)` with the default `squeeze=True` returns a bare,
non-iterable `Axes` object when exactly one subplot is constructed, and
raises `ValueError` (the `GridSpec` precondition) when `ncols = 0`; Python's
`zip` raises `TypeError` when handed a non-iterable argument.
-/

namespace PlottingCnn

/-- A 2D numeric array (numpy-style image): a list of rows of pixel values. -/
abbrev Image := List (List Int)

/-- A 3D numeric array viewed along its first axis: an ordered list of
2D channel slices, as Python iteration over a 3D numpy array yields them. -/
abbrev ChannelStack := List Image

/-- numpy `a.shape[0]` of a 2D array: the number of rows. -/
def shape0 (image : Image) : Nat := image.length

/-- numpy `a.shape[1]` of a 2D array: the number of columns (the common
length of the rows; 0 when there are no rows). -/
def shape1 (image : Image) : Nat :=
  match image with
  | [] => 0
  | r :: _ => r.length

/-- Python `range(a, b)`: the list `[a, a+1, ..., b-1]`. -/
def pyRange (a b : Nat) : List Nat :=
  (List.range (b - a)).map (fun j => a + j)

/-- Python `zip(xs, ys, zs)`: pairs up to the shortest of the three lists. -/
def pyZip3 {α β γ : Type} (xs : List α) (ys : List β) (zs : List γ) :
    List (α × β × γ) :=
  (xs.zip (ys.zip zs)).map (fun p => (p.1, p.2.1, p.2.2))

/-- The Python exceptions the backend calls made by this code can raise. -/
inductive PyError where
  | valueError : PyError
  | typeError : PyError
deriving DecidableEq

/-- The axes container returned by matplotlib `plt.subplots` with the default
`squeeze=True`: a single constructed subplot comes back as one bare `Axes`
object (which is not iterable), while a row of several subplots comes back
as an iterable array of axes handles, modelled here by their column indices. -/
inductive Axs where
  | singleAx : Axs
  | axArray : List Nat → Axs
deriving DecidableEq

/-- matplotlib `plt.subplots(nrows, ncols)` (defaults otherwise): the
`GridSpec` precondition rejects a non-positive row or column count with
`ValueError`; with exactly one subplot the result is squeezed to a bare
`Axes`; otherwise it is an array of axes handles (we only ever call it with
`nrows = 1`, so the handles are the `ncols` column indices). -/
def subplots (nrows ncols : Nat) : Except PyError Axs :=
  if nrows = 0 ∨ ncols = 0 then .error .valueError
  else if nrows = 1 ∧ ncols = 1 then .ok .singleAx
  else .ok (.axArray (List.range ncols))

/-- The figure configuration established by one `plot_image` call. -/
structure SinglePlot where
  imageData : Image
  cmap : String
  aspect : String
  extent : List Nat
  gridColor : String
  gridLinewidth : Nat
  xticks : List Nat
  yticks : List Nat
deriving DecidableEq

/-- Embedding of `plot_image(image)`: records the configuration set up by
`plt.imshow(image, cmap="gray", aspect="equal",
extent=[0, image.shape[1], 0, image.shape[0]])`,
`plt.grid(color="red", linewidth=1)`,
`plt.xticks(range(0, image.shape[1] + 1))`,
`plt.yticks(range(0, image.shape[0] + 1))`. -/
def plot_image (image : Image) : SinglePlot :=
  { imageData := image
    cmap := "gray"
    aspect := "equal"
    extent := [0, shape1 image, 0, shape0 image]
    gridColor := "red"
    gridLinewidth := 1
    xticks := pyRange 0 (shape1 image + 1)
    yticks := pyRange 0 (shape0 image + 1) }

/-- The configuration of one subplot established inside `plot_channels`. -/
structure SubPlot where
  channelData : Image
  cmap : String
  aspect : String
  extent : List Nat
  gridColor : String
  gridLinewidth : Nat
  title : String
  xticks : List Nat
  yticks : List Nat
deriving DecidableEq

/-- The body of the loop
`for channel, ax, i in zip(channels, axs, range(channels.shape[0]))`:
the calls `ax.imshow(channel, cmap="gray", aspect="equal",
extent=[0, channel.shape[1], 0, channel.shape[0]])`,
`ax.grid(color="red", linewidth=1)`, `ax.set_title(f"Channel {i}")`,
`ax.set_xticks(range(0, channel.shape[1] + 1))`,
`ax.set_yticks(range(0, channel.shape[0] + 1))`. -/
def renderChannel (channel : Image) (i : Nat) : SubPlot :=
  { channelData := channel
    cmap := "gray"
    aspect := "equal"
    extent := [0, shape1 channel, 0, shape0 channel]
    gridColor := "red"
    gridLinewidth := 1
    title := "Channel " ++ toString i
    xticks := pyRange 0 (shape1 channel + 1)
    yticks := pyRange 0 (shape0 channel + 1) }

/-- Embedding of `plot_channels(channels)`:
`fig, axs = plt.subplots(1, channels.shape[0])` followed by the loop
`for channel, ax, i in zip(channels, axs, range(channels.shape[0]))`.
A `ValueError` from `subplots` propagates; when `subplots` squeezes its
result to a bare `Axes`, `zip` raises `TypeError` because that object is
not iterable; otherwise the loop configures one subplot per zipped triple,
in order, and the list of subplot configurations (position `i` holding
subplot `i` of the row) is the result. -/
def plot_channels (channels : ChannelStack) : Except PyError (List SubPlot) :=
  match subplots 1 channels.length with
  | .error e => .error e
  | .ok .singleAx => .error .typeError
  | .ok (.axArray axlist) =>
      .ok ((pyZip3 channels axlist (List.range channels.length)).map
            (fun t => renderChannel t.1 t.2.2))

/-- Explicit-state form of a `plot_image` call: the first component is the
caller's array after the call returns. The body of `plot_image` contains no
store into `image` — every statement only reads it — so the array passes
through unchanged. -/
def plot_image_call (image : Image) : Image × SinglePlot :=
  (image, plot_image image)

/-- Explicit-state form of a `plot_channels` call: the first component is the
caller's array after the call returns (also when the call raises). The body
of `plot_channels` contains no store into `channels`. -/
def plot_channels_call (channels : ChannelStack) :
    ChannelStack × Except PyError (List SubPlot) :=
  (channels, plot_channels channels)

/-- Two 2D arrays have the same numpy shape. -/
def shapeEq (a b : Image) : Prop :=
  shape0 a = shape0 b ∧ shape1 a = shape1 b

/-- The value-independent part of a `plot_image` configuration: everything
except the pixel data handed to `imshow`. -/
def singleConfig (p : SinglePlot) :
    String × String × List Nat × String × Nat × List Nat × List Nat :=
  (p.cmap, p.aspect, p.extent, p.gridColor, p.gridLinewidth, p.xticks, p.yticks)

/-- The value-independent part of one subplot configuration: everything
except the pixel data handed to `imshow`. -/
def subplotConfig (p : SubPlot) :
    String × String × List Nat × String × Nat × String × List Nat × List Nat :=
  (p.cmap, p.aspect, p.extent, p.gridColor, p.gridLinewidth, p.title,
    p.xticks, p.yticks)

/-- The value-independent part of a whole `plot_channels` outcome. -/
def channelsConfig (r : Except PyError (List SubPlot)) :
    Except PyError
      (List (String × String × List Nat × String × Nat × String ×
        List Nat × List Nat)) :=
  r.map (List.map subplotConfig)

/-- `range(0, n)` is the list of naturals below `n`. -/
theorem pyRange_zero (n : Nat) : pyRange 0 n = List.range n := by
  simp [pyRange]

/-- With at least two channels, `plot_channels` succeeds and its result is
indexed by the zipped triples. -/
theorem plot_channels_ok (channels : ChannelStack) (h : 2 ≤ channels.length) :
    plot_channels channels =
      .ok ((pyZip3 channels (List.range channels.length)
              (List.range channels.length)).map
            (fun t => renderChannel t.1 t.2.2)) := by
  have h0 : channels.length ≠ 0 := by omega
  have h1 : channels.length ≠ 1 := by omega
  simp [plot_channels, subplots, h0, h1]

/-- The length of a Python triple zip is the least of the three lengths. -/
theorem pyZip3_length {α β γ : Type} (xs : List α) (ys : List β)
    (zs : List γ) :
    (pyZip3 xs ys zs).length = min xs.length (min ys.length zs.length) := by
  simp [pyZip3]

/-- Entry `i` of a Python triple zip is the triple of entries `i`. -/
theorem pyZip3_get {α β γ : Type} (xs : List α) (ys : List β) (zs : List γ)
    (i : Nat) (hx : i < xs.length) (hy : i < ys.length) (hz : i < zs.length) :
    (pyZip3 xs ys zs).get
        ⟨i, by simp [pyZip3_length]; omega⟩ =
      (xs.get ⟨i, hx⟩, ys.get ⟨i, hy⟩, zs.get ⟨i, hz⟩) := by
  simp [pyZip3]

/-- A successful `plot_channels` result has one subplot per channel. -/
theorem plot_channels_result_length (channels : ChannelStack)
    (plots : List SubPlot) (h : 2 ≤ channels.length)
    (hok : plot_channels channels = .ok plots) :
    plots.length = channels.length := by
  rw [plot_channels_ok channels h] at hok
  injection hok with hok
  subst hok
  simp [pyZip3_length]

/-- Entry `i` of a successful `plot_channels` result is the configuration the
loop body builds for channel `i` with title index `i`. -/
theorem plot_channels_result_get (channels : ChannelStack)
    (plots : List SubPlot) (h : 2 ≤ channels.length)
    (hok : plot_channels channels = .ok plots)
    (i : Nat) (hi : i < channels.length) (hpi : i < plots.length) :
    plots.get ⟨i, hpi⟩ = renderChannel (channels.get ⟨i, hi⟩) i := by
  rw [plot_channels_ok channels h] at hok
  injection hok with hok
  subst hok
  simp [pyZip3, List.get_eq_getElem, List.getElem_map, List.getElem_zip,
    List.getElem_range]

/-- A subplot configuration, apart from the pixel data, depends only on the
channel's shape and the title index. -/
theorem renderChannel_config {c d : Image} (h : shapeEq c d) (i : Nat) :
    subplotConfig (renderChannel c i) = subplotConfig (renderChannel d i) := by
  obtain ⟨h0, h1⟩ := h
  simp [subplotConfig, renderChannel, h0, h1]

/-- The first component of a member of a Python triple zip is a member of the
first zipped list. -/
theorem pyZip3_mem_left {α β γ : Type} {xs : List α} {ys : List β}
    {zs : List γ} {t : α × β × γ} (h : t ∈ pyZip3 xs ys zs) : t.1 ∈ xs := by
  simp only [pyZip3, List.mem_map] at h
  obtain ⟨p, hp, rfl⟩ := h
  exact (List.of_mem_zip hp).1

/-- A `plot_channels` call that succeeds was made with at least 2 channels. -/
theorem plot_channels_ok_length (channels : ChannelStack)
    (plots : List SubPlot) (hok : plot_channels channels = .ok plots) :
    2 ≤ channels.length := by
  match channels, hok with
  | [], hok => exact absurd hok (by simp [plot_channels, subplots])
  | [c], hok => exact absurd hok (by simp [plot_channels, subplots])
  | c1 :: c2 :: rest, _ => simp only [List.length_cons]; omega

/-- C1: the claim says a single-channel stack (N = 1) is rendered uniformly
with no iteration error, but the code's `plt.subplots(1, 1)` squeezes its
result to a bare non-iterable `Axes`, so `zip(channels, axs, ...)` raises
`TypeError` at the failing input, a stack of one 1x1 channel. -/
theorem plot_channels_single_raises :
    plot_channels [[[(0 : Int)]]] = .error .typeError := rfl

/-- C2: for an Image with at least one row and one column, the configured
tick positions are exactly the integers 0..C on the x axis and 0..R on the
y axis: C+1 and R+1 ticks, each axis holding every integer up to its bound
and nothing else. -/
theorem plot_image_ticks_exact (image : Image)
    (_hR : 1 ≤ shape0 image) (_hC : 1 ≤ shape1 image) :
    (plot_image image).xticks = List.range (shape1 image + 1) ∧
    (plot_image image).yticks = List.range (shape0 image + 1) ∧
    (plot_image image).xticks.length = shape1 image + 1 ∧
    (plot_image image).yticks.length = shape0 image + 1 ∧
    (∀ t, t ∈ (plot_image image).xticks ↔ t ≤ shape1 image) ∧
    (∀ t, t ∈ (plot_image image).yticks ↔ t ≤ shape0 image) := by
  refine ⟨?_, ?_, ?_, ?_, ?_, ?_⟩ <;>
    simp [plot_image, pyRange_zero, List.mem_range, Nat.lt_succ_iff]

/-- C2 witness: the 2x2 image [[3,7],[1,2]] gets x ticks 0,1,2. -/
theorem plot_image_ticks_exact_witness :
    1 ≤ shape0 ([[3, 7], [1, 2]] : Image) ∧
    (plot_image ([[3, 7], [1, 2]] : Image)).xticks =
      List.range (shape1 ([[3, 7], [1, 2]] : Image) + 1) :=
  ⟨by decide,
    (plot_image_ticks_exact [[3, 7], [1, 2]] (by decide) (by decide)).1⟩

/-- C3 as stated fails at N = 1: the call produces no subplot list at all (it
raises a TypeError), instead of one subplot titled "Channel 0". -/
theorem plot_channels_single_not_ok :
    ¬ ∃ plots : List SubPlot,
        plot_channels [[[(1 : Int)]]] = .ok plots := by
  rintro ⟨plots, h⟩
  rw [show plot_channels [[[(1 : Int)]]] = .error .typeError from rfl] at h
  exact Except.noConfusion h

/-- C3 (amended to N ≥ 2): `plot_channels` on a stack of N ≥ 2 channels
succeeds, creates exactly N subplots in the single row, and for each i in
increasing order subplot i holds channel i with title "Channel i". -/
theorem plot_channels_renders_in_order (channels : ChannelStack)
    (hN : 2 ≤ channels.length) :
    ∃ plots : List SubPlot,
      plot_channels channels = .ok plots ∧
      plots.length = channels.length ∧
      ∀ i (hi : i < channels.length) (hpi : i < plots.length),
        (plots.get ⟨i, hpi⟩).channelData = channels.get ⟨i, hi⟩ ∧
        (plots.get ⟨i, hpi⟩).title = "Channel " ++ toString i := by
  refine ⟨_, plot_channels_ok channels hN, ?_, ?_⟩
  · exact plot_channels_result_length channels _ hN
      (plot_channels_ok channels hN)
  · intro i hi hpi
    rw [plot_channels_result_get channels _ hN (plot_channels_ok channels hN)
      i hi hpi]
    exact ⟨rfl, rfl⟩

/-- C3 witness: a stack of two 1x1 channels renders two titled subplots. -/
theorem plot_channels_renders_in_order_witness :
    2 ≤ List.length ([[[1]], [[2]]] : ChannelStack) ∧
    ∃ plots : List SubPlot,
      plot_channels ([[[1]], [[2]]] : ChannelStack) = .ok plots ∧
      plots.length = List.length ([[[1]], [[2]]] : ChannelStack) ∧
      ∀ i (hi : i < List.length ([[[1]], [[2]]] : ChannelStack))
        (hpi : i < plots.length),
        (plots.get ⟨i, hpi⟩).channelData =
          List.get ([[[1]], [[2]]] : ChannelStack) ⟨i, hi⟩ ∧
        (plots.get ⟨i, hpi⟩).title = "Channel " ++ toString i :=
  ⟨by decide, plot_channels_renders_in_order [[[1]], [[2]]] (by decide)⟩

/-- C4: `plot_image` displays with equal aspect ratio and coordinate extent
exactly [0, C] horizontally and [0, R] vertically. -/
theorem plot_image_extent_aspect (image : Image) :
    (plot_image image).aspect = "equal" ∧
    (plot_image image).extent = [0, shape1 image, 0, shape0 image] :=
  ⟨rfl, rfl⟩

/-- C5: neither call mutates its input array: after either call the caller's
array is exactly what was passed in. -/
theorem renderers_preserve_input (image : Image) (channels : ChannelStack) :
    (plot_image_call image).1 = image ∧
    (plot_channels_call channels).1 = channels :=
  ⟨rfl, rfl⟩

/-- C6: `plot_image` on a 1x1 array succeeds and configures ticks [0, 1] on
both axes. -/
theorem plot_image_1x1 (v : Int) :
    (plot_image [[v]]).xticks = [0, 1] ∧
    (plot_image [[v]]).yticks = [0, 1] :=
  ⟨rfl, rfl⟩

/-- C7: on an empty stack (N = 0) the call deterministically fails fast with
the backend's precondition `ValueError` from `plt.subplots(1, 0)`, before any
subplot is rendered; as a function of the input this outcome is the same on
every call. -/
theorem plot_channels_empty :
    plot_channels ([] : ChannelStack) = .error .valueError := rfl

/-- C8: the renderers perform no validation of their own: an error raised by
the backend `subplots` call propagates to the caller unchanged and aborts the
call, and every error `plot_channels` returns is exactly a backend error (the
`subplots` ValueError, or the TypeError `zip` raises on the squeezed bare
Axes) with no substitution, retry or recovery. -/
theorem plot_channels_error_propagation (channels : ChannelStack)
    (e : PyError) :
    (subplots 1 channels.length = .error e →
      plot_channels channels = .error e) ∧
    (plot_channels channels = .error e →
      subplots 1 channels.length = .error e ∨
        (subplots 1 channels.length = .ok .singleAx ∧ e = .typeError)) := by
  constructor
  · intro h
    simp [plot_channels, h]
  · intro h
    cases hs : subplots 1 channels.length with
    | error e2 =>
        left
        have hpc : plot_channels channels = Except.error e2 := by
          simp [plot_channels, hs]
        rw [hpc] at h
        injection h with h
        rw [h]
    | ok axs =>
        cases axs with
        | singleAx =>
            right
            have hpc : plot_channels channels =
                Except.error PyError.typeError := by
              simp [plot_channels, hs]
            rw [hpc] at h
            injection h with h
            exact ⟨rfl, h.symm⟩
        | axArray axlist =>
            simp [plot_channels, hs] at h

/-- C8 witness: the empty stack makes `subplots` fail with ValueError, and
`plot_channels` returns that very error. -/
theorem plot_channels_error_propagation_witness :
    subplots 1 (List.length ([] : ChannelStack)) = .error .valueError ∧
    plot_channels ([] : ChannelStack) = .error .valueError :=
  ⟨rfl, (plot_channels_error_propagation [] .valueError).1 rfl⟩

/-- C9: the configured ticks, extents, subplot count and titles depend only
on the input's shape, not its pixel values: same-shape inputs yield identical
configurations (including identical success or failure). -/
theorem config_depends_only_on_shape (a b : Image) (s t : ChannelStack)
    (hab : shapeEq a b) (hst : List.Forall₂ shapeEq s t) :
    singleConfig (plot_image a) = singleConfig (plot_image b) ∧
    channelsConfig (plot_channels s) = channelsConfig (plot_channels t) := by
  obtain ⟨ha0, ha1⟩ := hab
  constructor
  · simp [singleConfig, plot_image, ha0, ha1]
  · have hlen : s.length = t.length := hst.length_eq
    by_cases h0 : s.length = 0
    · have h0t : t.length = 0 := by omega
      simp [plot_channels, subplots, h0, h0t, channelsConfig]
    · by_cases h1 : s.length = 1
      · have h1t : t.length = 1 := by omega
        simp [plot_channels, subplots, h1, h1t, channelsConfig]
      · have h2 : 2 ≤ s.length := by omega
        have h2t : 2 ≤ t.length := by omega
        rw [plot_channels_ok s h2, plot_channels_ok t h2t]
        simp only [channelsConfig, Except.map]
        refine congrArg Except.ok ?_
        refine List.ext_get ?_ ?_
        · simp [pyZip3_length, hlen]
        · intro i hi1 hi2
          have his : i < s.length := by
            simp [pyZip3_length] at hi1
            omega
          have hit : i < t.length := by omega
          simp only [List.get_eq_getElem, List.getElem_map, pyZip3,
            List.getElem_zip, List.getElem_range]
          simpa only [List.get_eq_getElem] using
            renderChannel_config (hst.get his hit) i

/-- C9 witness: a same-shape pair of 1x1 images with different values, and a
same-shape pair of 2-channel stacks with different values, get identical
configurations. -/
theorem config_depends_only_on_shape_witness :
    shapeEq [[(1 : Int)]] [[(9 : Int)]] ∧
    singleConfig (plot_image [[(1 : Int)]]) =
      singleConfig (plot_image [[(9 : Int)]]) ∧
    channelsConfig (plot_channels [[[(1 : Int)]], [[(2 : Int)]]]) =
      channelsConfig (plot_channels [[[(7 : Int)]], [[(8 : Int)]]]) :=
  (fun h => ⟨⟨rfl, rfl⟩, h.1, h.2⟩)
    (config_depends_only_on_shape [[(1 : Int)]] [[(9 : Int)]]
      [[[(1 : Int)]], [[(2 : Int)]]] [[[(7 : Int)]], [[(8 : Int)]]]
      ⟨rfl, rfl⟩ (.cons ⟨rfl, rfl⟩ (.cons ⟨rfl, rfl⟩ .nil)))

/-- C10: in one successful `plot_channels` call on channels that all share
the shape (R, C) — as the slices of a genuine 3D array do — every subplot
receives the same extent and the same tick configuration as every other. -/
theorem subplots_uniform_config (channels : ChannelStack)
    (plots : List SubPlot) (R C : Nat)
    (hsh : ∀ c ∈ channels, shape0 c = R ∧ shape1 c = C)
    (hok : plot_channels channels = .ok plots) :
    ∀ p ∈ plots, ∀ q ∈ plots,
      p.extent = q.extent ∧ p.xticks = q.xticks ∧ p.yticks = q.yticks := by
  have h2 : 2 ≤ channels.length := plot_channels_ok_length channels plots hok
  rw [plot_channels_ok channels h2] at hok
  injection hok with hok
  subst hok
  have key : ∀ p ∈ (pyZip3 channels (List.range channels.length)
      (List.range channels.length)).map (fun t => renderChannel t.1 t.2.2),
      p.extent = [0, C, 0, R] ∧ p.xticks = pyRange 0 (C + 1) ∧
        p.yticks = pyRange 0 (R + 1) := by
    intro p hp
    simp only [List.mem_map] at hp
    obtain ⟨t, ht, rfl⟩ := hp
    obtain ⟨hc0, hc1⟩ := hsh t.1 (pyZip3_mem_left ht)
    simp [renderChannel, hc0, hc1]
  intro p hp q hq
  obtain ⟨hpe, hpx, hpy⟩ := key p hp
  obtain ⟨hqe, hqx, hqy⟩ := key q hq
  exact ⟨hpe.trans hqe.symm, hpx.trans hqx.symm, hpy.trans hqy.symm⟩

/-- C10 witness: both subplots of a two-channel 1x2 stack share extent and
ticks. -/
theorem subplots_uniform_config_witness :
    (renderChannel [[(1 : Int), 2]] 0).extent =
        (renderChannel [[(3 : Int), 4]] 1).extent ∧
      (renderChannel [[(1 : Int), 2]] 0).xticks =
        (renderChannel [[(3 : Int), 4]] 1).xticks ∧
      (renderChannel [[(1 : Int), 2]] 0).yticks =
        (renderChannel [[(3 : Int), 4]] 1).yticks :=
  subplots_uniform_config [[[(1 : Int), 2]], [[(3 : Int), 4]]]
    [renderChannel [[(1 : Int), 2]] 0, renderChannel [[(3 : Int), 4]] 1]
    1 2 (by decide) rfl
    (renderChannel [[(1 : Int), 2]] 0) (List.mem_cons_self _ _)
    (renderChannel [[(3 : Int), 4]] 1)
    (List.mem_cons_of_mem _ (List.mem_cons_self _ _))

end PlottingCnn
